import Mathlib

set_option maxRecDepth 8000

/-!
A verification development for the pre-flight database check script
(`scripts/check-db.js`) and the HTTP response-normalisation helper
(`src/lib/fetch.ts`).  The JavaScript source is embedded shallowly:
`process.env` reads become an explicit `Env` record, the parsed
connection `URL` becomes the record of query parameters the script
consumes, the database / migration-runner collaborators become an
explicit `World` record, and printed output plus the process exit code
become an explicit `Outcome` value.
-/

/-- JavaScript truthiness of an optional environment string: `undefined`
(`none`) and the empty string are falsy, every other string is truthy. -/
def jsTruthy : Option String → Bool
  | none => false
  | some s => s != ""

/-- The truthy spellings accepted for the boolean-style flags of the
script: the code tests such a flag with `x === '1' || x === 'true'`. -/
def flagTruthy (o : Option String) : Bool :=
  o == some "1" || o == some "true"

/-- The part of a parsed WHATWG `URL` object that `scripts/check-db.js`
consumes: its query parameters, in order. -/
structure UrlModel where
  params : List (String × String)

deriving DecidableEq

/-- `url.searchParams.get(k)`: the value of the first query parameter
named `k`, or `null` (here `none`) when the parameter is absent. -/
def UrlModel.get (u : UrlModel) (k : String) : Option String :=
  (u.params.find? (fun p => p.1 == k)).map (fun p => p.2)

/-- The environment variables read by `scripts/check-db.js`. -/
structure Env where
  DATABASE_URL : Option String
  SKIP_DB_CHECK : Option String
  SKIP_DB_MIGRATION : Option String
  DATABASE_SSL : Option String
  DATABASE_SSL_REJECT_UNAUTHORIZED : Option String
  DATABASE_SSL_CA : Option String
  DATABASE_SSL_CA_BASE64 : Option String
  DATABASE_SSL_DEBUG : Option String
  REDIS_URL : Option String

deriving DecidableEq

/-- An environment with every variable unset. -/
def emptyEnv : Env :=
  ⟨none, none, none, none, none, none, none, none, none⟩

/-- The JavaScript regex whitespace class `\s`, restricted to its ASCII
members (the Unicode space characters it also contains are not exercised
by any input considered here). -/
def jsWsChar (c : Char) : Bool :=
  c == ' ' || c == '\t' || c == '\n' || c == '\r' || c == '\x0b' || c == '\x0c'

/-- `value.replace(/\s+/g, '')`: remove every whitespace character. -/
def stripJsWs (s : String) : String :=
  String.mk (s.toList.filter (fun c => !jsWsChar c))

/-- The value of one character under Node's base64 alphabet.  Node's
decoder also accepts the URL-safe alphabet (`-` for 62, `_` for 63).
Characters outside the alphabet — including `=` — yield `none` and are
skipped by the lenient decoder of `Buffer.from(s, 'base64')`. -/
def b64Val (c : Char) : Option Nat :=
  if decide ('A' ≤ c ∧ c ≤ 'Z') then some (c.toNat - 65)
  else if decide ('a' ≤ c ∧ c ≤ 'z') then some (c.toNat - 97 + 26)
  else if decide ('0' ≤ c ∧ c ≤ '9') then some (c.toNat - 48 + 52)
  else if c == '+' || c == '-' then some 62
  else if c == '/' || c == '_' then some 63
  else none

/-- Convert groups of four base64 digit values into three bytes each; a
trailing group of two or three values yields one or two bytes, and a
trailing single value is dropped, as in Node's decoder. -/
def b64Groups : List Nat → List Nat
  | v0 :: v1 :: v2 :: v3 :: rest =>
      (v0 * 4 + v1 / 16) :: ((v1 % 16) * 16 + v2 / 4) ::
        ((v2 % 4) * 64 + v3) :: b64Groups rest
  | [v0, v1] => [v0 * 4 + v1 / 16]
  | [v0, v1, v2] => [v0 * 4 + v1 / 16, (v1 % 16) * 16 + v2 / 4]
  | _ => []

/-- The bytes produced by Node's lenient `Buffer.from(s, 'base64')`:
characters outside the base64 alphabet are ignored, never an error. -/
def b64DecodeBytes (s : String) : List Nat :=
  b64Groups (s.toList.filterMap b64Val)

/-- The U+FFFD replacement character. -/
def replChar : Char := Char.ofNat 0xFFFD

/-- Whether a byte is a UTF-8 continuation byte. -/
def isContByte (b : Nat) : Bool := decide (0x80 ≤ b ∧ b ≤ 0xBF)

/-- UTF-8 decoding with U+FFFD substitution for invalid sequences, as
performed by `buf.toString('utf8')`.  The first argument is fuel; every
step consumes at least one input byte. -/
def utf8Chars : Nat → List Nat → List Char
  | 0, _ => []
  | _, [] => []
  | f + 1, b :: rest =>
    if b < 0x80 then Char.ofNat b :: utf8Chars f rest
    else if decide (0xC2 ≤ b ∧ b ≤ 0xDF) then
      match rest with
      | b2 :: rest2 =>
        if isContByte b2 then
          Char.ofNat ((b - 0xC0) * 64 + (b2 - 0x80)) :: utf8Chars f rest2
        else replChar :: utf8Chars f rest
      | [] => [replChar]
    else if decide (0xE0 ≤ b ∧ b ≤ 0xEF) then
      match rest with
      | b2 :: b3 :: rest3 =>
        let cp := (b - 0xE0) * 4096 + (b2 - 0x80) * 64 + (b3 - 0x80)
        if isContByte b2 && isContByte b3 && decide (0x800 ≤ cp) &&
            !decide (0xD800 ≤ cp ∧ cp ≤ 0xDFFF) then
          Char.ofNat cp :: utf8Chars f rest3
        else replChar :: utf8Chars f rest
      | _ => [replChar]
    else if decide (0xF0 ≤ b ∧ b ≤ 0xF4) then
      match rest with
      | b2 :: b3 :: b4 :: rest4 =>
        let cp := (b - 0xF0) * 262144 + (b2 - 0x80) * 4096 +
          (b3 - 0x80) * 64 + (b4 - 0x80)
        if isContByte b2 && isContByte b3 && isContByte b4 &&
            decide (0x10000 ≤ cp ∧ cp ≤ 0x10FFFF) then
          Char.ofNat cp :: utf8Chars f rest4
        else replChar :: utf8Chars f rest
      | _ => [replChar]
    else replChar :: utf8Chars f rest

/-- `buf.toString('utf8')` for a byte list. -/
def bufToUtf8 (bs : List Nat) : String :=
  String.mk (utf8Chars (bs.length + 1) bs)

/-- Node's `Buffer.from(s, 'base64').toString('utf8')`: total, never
raising, for every input string. -/
def nodeB64ToUtf8 (s : String) : String :=
  bufToUtf8 (b64DecodeBytes s)

/-- The object returned by `getSslOptions` when TLS is enabled.
`ca = some c` models the presence of the `ca` key; the conditional
spread `...(ca ? { ca } : {})` in the source omits the key entirely when
`ca` is falsy, which `ca = none` models. -/
structure SslOptions where
  rejectUnauthorized : Bool
  ca : Option String

deriving DecidableEq

/-- `getSslOptions(connectionUrl)` from `scripts/check-db.js`, with its
`process.env` reads passed explicitly.  Returning `none` models the
early `return undefined` when TLS is not enabled. -/
def getSslOptions (connectionUrl : UrlModel) (env : Env) : Option SslOptions :=
  let ssl := connectionUrl.get "ssl"
  let sslmode := connectionUrl.get "sslmode"
  let envSsl := env.DATABASE_SSL
  let envRejectUnauthorized := env.DATABASE_SSL_REJECT_UNAUTHORIZED
  let envCa := env.DATABASE_SSL_CA
  let envCaBase64 := env.DATABASE_SSL_CA_BASE64
  let enabled :=
    envSsl == some "1" || envSsl == some "true" ||
    ssl == some "1" || ssl == some "true" ||
    (jsTruthy sslmode && sslmode != some "disable")
  if !enabled then none
  else
    let rejectUnauthorized :=
      match envRejectUnauthorized with
      | some v => !(v == "0" || v == "false")
      | none =>
        if sslmode == some "require" || sslmode == some "prefer" then false
        else true
    let ca : Option String :=
      if !jsTruthy envCa && jsTruthy envCaBase64 then
        some (nodeB64ToUtf8 (stripJsWs (envCaBase64.getD "")))
      else envCa
    some { rejectUnauthorized := rejectUnauthorized,
           ca := if jsTruthy ca then ca else none }

/-- Whether a character is an ASCII digit. -/
def isDigitC (c : Char) : Bool := decide ('0' ≤ c ∧ c ≤ '9')

/-- Numeric value of a digit string. -/
def digitsToNat (cs : List Char) : Nat :=
  cs.foldl (fun a c => a * 10 + (c.toNat - 48)) 0

/-- JavaScript `Number.MAX_SAFE_INTEGER`; a coerced component above it
makes semver's parse return `null`. -/
def maxSafeInteger : Nat := 9007199254740991

/-- One optional `.<digits>` component of semver's COERCE regex: it
matches only when a digit run of one to sixteen digits follows a dot. -/
def coerceDotPart (cs : List Char) : Option (Nat × List Char) :=
  match cs with
  | '.' :: rest =>
    let run := rest.takeWhile isDigitC
    if decide (1 ≤ run.length ∧ run.length ≤ 16) then
      some (digitsToNat run, rest.dropWhile isDigitC)
    else none
  | _ => none

/-- Build the coerced triple, subject to semver's `MAX_SAFE_INTEGER`
bound on each component (violations make `parse`, hence `coerce`,
return `null`). -/
def coerceTriple (major minor patch : Nat) : Option (Nat × Nat × Nat) :=
  if decide (major ≤ maxSafeInteger ∧ minor ≤ maxSafeInteger ∧ patch ≤ maxSafeInteger) then
    some (major, minor, patch)
  else none

/-- The scan of semver's COERCE regex: find the first maximal digit run
(preceded by start-of-string or a non-digit) of at most sixteen digits;
it is the major component, optionally followed by `.minor` and
`.patch` runs of at most sixteen digits (a too-long or absent run makes
the optional group fail, leaving the component at 0).  A digit run
longer than sixteen digits can anchor no match and is skipped whole.
The first argument is fuel; every step consumes at least one input
character. -/
def coerceScan : Nat → List Char → Option (Nat × Nat × Nat)
  | 0, _ => none
  | _, [] => none
  | f + 1, c :: rest =>
    if isDigitC c then
      let run := (c :: rest).takeWhile isDigitC
      let after := (c :: rest).dropWhile isDigitC
      if run.length ≤ 16 then
        match coerceDotPart after with
        | some (mi, a2) =>
          match coerceDotPart a2 with
          | some (pa, _) => coerceTriple (digitsToNat run) mi pa
          | none => coerceTriple (digitsToNat run) mi 0
        | none => coerceTriple (digitsToNat run) 0 0
      else coerceScan f after
    else coerceScan f rest

/-- `semver.valid(semver.coerce(s))`: the first semantic-version-like
substring of `s` as a (major, minor, patch) triple, or `none` when no
version can be extracted (in which case `valid` yields `null`). -/
def semverCoerce (s : String) : Option (Nat × Nat × Nat) :=
  coerceScan (s.toList.length + 1) s.toList

/-- `semver.lt` on coerced versions (which carry no prerelease part):
lexicographic comparison of the three numeric components. -/
def semverLtV : Nat × Nat × Nat → Nat × Nat × Nat → Bool
  | (a1, a2, a3), (b1, b2, b3) =>
    decide (a1 < b1) ||
      (a1 == b1 && (decide (a2 < b2) || (a2 == b2 && decide (a3 < b3))))

/-- `MIN_VERSION = '9.4.0'` from the script. -/
def MIN_VERSION : Nat × Nat × Nat := (9, 4, 0)

/-- One line printed by the script: a plain `console.log` line, a
`success` line (the `✓` prefix is elided) or a failure line printed by
`error(msg)` (the `✗` prefix is elided). -/
inductive Line where
  | log (msg : String)
  | ok (msg : String)
  | err (msg : String)

deriving DecidableEq

/-- The outside world the script talks to: the result of
`prisma.$connect()`, the string returned by `select version()`, and the
outcome of `execSync('prisma migrate deploy')` (`ok` carries the
captured stdout, `error` carries the thrown error's message). -/
structure World where
  connectResult : Except String Unit
  versionString : String
  migrationResult : Except String String

/-- `checkEnv` from the script: throws when `DATABASE_URL` is falsy,
otherwise prints a success line, plus an informational success line when
`REDIS_URL` is truthy.  A check's value is the list of lines it prints;
`Except.error` models a thrown error, carrying its message. -/
def checkEnv (env : Env) : Except String (List Line) :=
  if !jsTruthy env.DATABASE_URL then Except.error "DATABASE_URL is not defined."
  else
    Except.ok ([Line.ok "DATABASE_URL is defined."] ++
      (if jsTruthy env.REDIS_URL then [Line.ok "REDIS_URL is defined."] else []))

/-- `checkConnection`: wraps any connect failure in its own message. -/
def checkConnection (w : World) : Except String (List Line) :=
  match w.connectResult with
  | Except.ok _ => Except.ok [Line.ok "Database connection successful."]
  | Except.error m => Except.error ("Unable to connect to the database: " ++ m)

/-- The message of the `TypeError` the semver library raises when
`semver.lt` receives the `null` produced by an uncoercible version
string (its exact text depends on the semver release; no theorem below
relies on it). -/
def semverTypeErrorMsg : String :=
  "Invalid version. Must be a string. Got type \"object\"."

/-- The script's below-minimum failure message. -/
def versionTooOldMsg : String :=
  "Database version is not compatible. Please upgrade to 9.4.0 or greater."

/-- `checkDatabaseVersion`: coerce the reported version string; when the
coercion fails, `semver.lt(null, MIN_VERSION)` throws a `TypeError`;
when the coerced version is below `MIN_VERSION`, throw the
compatibility error; otherwise print a success line. -/
def checkDatabaseVersion (w : World) : Except String (List Line) :=
  match semverCoerce w.versionString with
  | none => Except.error semverTypeErrorMsg
  | some v =>
    if semverLtV v MIN_VERSION then Except.error versionTooOldMsg
    else Except.ok [Line.ok "Database version check successful."]

/-- `applyMigration`: when `SKIP_DB_MIGRATION` is falsy, run the
migration subprocess, print its captured output and a success line;
`execSync` throws on a non-zero outcome.  When the skip flag is truthy
the whole body is skipped and nothing is printed. -/
def applyMigration (env : Env) (w : World) : Except String (List Line) :=
  if !jsTruthy env.SKIP_DB_MIGRATION then
    match w.migrationResult with
    | Except.ok out => Except.ok [Line.log out, Line.ok "Database is up to date."]
    | Except.error m => Except.error m
  else Except.ok []

/-- The ordered check list the main IIFE iterates over. -/
def pipelineChecks (env : Env) (w : World) : List (String × Except String (List Line)) :=
  [("checkEnv", checkEnv env),
   ("checkConnection", checkConnection w),
   ("checkDatabaseVersion", checkDatabaseVersion w),
   ("applyMigration", applyMigration env w)]

/-- Observable behaviour of one run: names of the checks that started
executing, in order; the lines printed; and the process exit code. -/
structure Outcome where
  ran : List String
  trace : List Line
  exitCode : Nat

deriving DecidableEq

/-- The main IIFE's loop: run each named check in order; on success
append its lines and continue; on the first thrown error print the
failure line and exit with code 1 (the `finally` block calls
`process.exit(1)` as soon as `err` is set, so no later check runs).
When every check succeeds the loop ends and the process exits 0. -/
def runChecksList : List (String × Except String (List Line)) → Outcome
  | [] => ⟨[], [], 0⟩
  | (name, r) :: rest =>
    match r with
    | Except.ok ls =>
      let o := runChecksList rest
      ⟨name :: o.ran, ls ++ o.trace, o.exitCode⟩
    | Except.error e => ⟨[name], [Line.err e], 1⟩

/-- The debug line `getSslOptions` prints: only reached when TLS is
enabled (the function returns early otherwise) and the debug flag is
truthy.  The object printed after the marker is elided. -/
def sslDebugLines (url : UrlModel) (env : Env) : List Line :=
  if jsTruthy env.DATABASE_SSL_DEBUG && (getSslOptions url env).isSome then
    [Line.log "DB SSL debug:"]
  else []

/-- The whole script, `scripts/check-db.js`, as a function of the
environment, an abstract WHATWG `URL` constructor `parse` (`none`
models the constructor throwing) and the outside world.  Control flow:
the `SKIP_DB_CHECK` guard runs first and exits 0; then the module-level
`new URL(process.env.DATABASE_URL)` runs — when `DATABASE_URL` is
unset, `undefined` stringifies to the text "undefined", which has no
scheme, so the constructor throws and the uncaught TypeError terminates
the process with exit code 1 before any check executes (modelled as an
empty trace; Node prints the stack to stderr, which is not modelled);
then the TLS options are derived (possibly printing the debug line) and
the four checks run in order. -/
def runScript (parse : String → Option UrlModel) (env : Env) (w : World) : Outcome :=
  if jsTruthy env.SKIP_DB_CHECK then
    ⟨[], [Line.log "Skipping database check."], 0⟩
  else
    match env.DATABASE_URL with
    | none => ⟨[], [], 1⟩
    | some s =>
      match parse s with
      | none => ⟨[], [], 1⟩
      | some url =>
        let o := runChecksList (pipelineChecks env w)
        ⟨o.ran, sslDebugLines url env ++ o.trace, o.exitCode⟩

/-- Whether a character is an ASCII letter. -/
def isAlphaC (c : Char) : Bool :=
  decide ('a' ≤ c ∧ c ≤ 'z') || decide ('A' ≤ c ∧ c ≤ 'Z')

/-- Characters allowed after the first character of a URL scheme. -/
def isSchemeTailChar (c : Char) : Bool :=
  isAlphaC c || isDigitC c || c == '+' || c == '-' || c == '.'

/-- Whether a string begins with a well-formed URL scheme followed by a
colon — the WHATWG URL requirement whose violation makes the
constructor throw (notably for the text "undefined"). -/
def validScheme (s : String) : Bool :=
  match s.toList with
  | [] => false
  | c :: rest =>
    isAlphaC c && rest.any (fun d => d == ':') &&
      (rest.takeWhile (fun d => d != ':')).all isSchemeTailChar

/-- The input after the first occurrence of `sep`, if any. -/
def afterChar (sep : Char) : List Char → Option (List Char)
  | [] => none
  | c :: rest => if c == sep then some rest else afterChar sep rest

/-- The input up to (excluding) the first occurrence of `sep`. -/
def untilChar (sep : Char) (cs : List Char) : List Char :=
  cs.takeWhile (fun c => c != sep)

/-- Split a query string on `&`; the first argument is fuel (every step
consumes at least one character). -/
def splitAmp : Nat → List Char → List (List Char)
  | 0, _ => []
  | f + 1, cs =>
    match cs with
    | [] => []
    | _ =>
      let seg := cs.takeWhile (fun c => c != '&')
      let rest := cs.dropWhile (fun c => c != '&')
      seg :: (match rest with
              | _ :: r => splitAmp f r
              | [] => [])

/-- One `key=value` query segment (an empty segment contributes no
parameter; a segment without `=` has the empty value). -/
def paramOfSeg (seg : List Char) : Option (String × String) :=
  if seg.isEmpty then none
  else
    let k := seg.takeWhile (fun c => c != '=')
    let rest := seg.dropWhile (fun c => c != '=')
    match rest with
    | [] => some (String.mk k, "")
    | _ :: v => some (String.mk k, String.mk v)

/-- A partial, executable model of the WHATWG URL constructor: it keeps
only what the script consumes (the query parameters, taken from between
the first `?` and any `#`) and the principal failure mode (a missing or
malformed scheme).  Percent-decoding and `+` decoding inside parameter
values are not modelled; no input exercised below contains them. -/
def parseUrlModel (s : String) : Option UrlModel :=
  if validScheme s then
    let afterQ := (afterChar '?' s.toList).getD []
    let q := untilChar '#' afterQ
    some ⟨(splitAmp (q.length + 1) q).filterMap paramOfSeg⟩
  else none

/-- The TLS enabling condition exactly as the source computes it. -/
def tlsEnabledBool (u : UrlModel) (env : Env) : Bool :=
  env.DATABASE_SSL == some "1" || env.DATABASE_SSL == some "true" ||
  u.get "ssl" == some "1" || u.get "ssl" == some "true" ||
  (jsTruthy (u.get "sslmode") && u.get "sslmode" != some "disable")

/-- The enabling condition in the words of the claim: the environment
override flag is truthy, or the URL's `ssl` parameter is truthy
("truthy" read as the code's accepted spellings `'1'`/`'true'`), or the
`sslmode` parameter is present and not equal to "disable". -/
def claimedTlsEnabled (u : UrlModel) (env : Env) : Bool :=
  flagTruthy env.DATABASE_SSL || flagTruthy (u.get "ssl") ||
  ((u.get "sslmode").isSome && u.get "sslmode" != some "disable")

/-- The CA material as the source resolves it: `let ca = envCa` followed
by the base64 fallback when `ca` is falsy and the base64 override is
truthy. -/
def resolvedCa (env : Env) : Option String :=
  if !jsTruthy env.DATABASE_SSL_CA && jsTruthy env.DATABASE_SSL_CA_BASE64 then
    some (nodeB64ToUtf8 (stripJsWs (env.DATABASE_SSL_CA_BASE64.getD "")))
  else env.DATABASE_SSL_CA

/-- A concrete environment for the C9 witness: TLS forced on, raw CA
override set to the empty string, base64 override `aGk=` ("hi"). -/
def envC9 : Env :=
  ⟨none, none, none, some "1", none, some "", some "aGk=", none, none⟩

/-- Whether a character belongs to the strict (RFC 4648) base64
alphabet, padding excluded. -/
def isB64StdChar (c : Char) : Bool :=
  decide ('A' ≤ c ∧ c ≤ 'Z') || decide ('a' ≤ c ∧ c ≤ 'z') || isDigitC c ||
    c == '+' || c == '/'

/-- Strict well-formedness of a base64 string: length a multiple of
four, alphabet characters followed by at most two `=` padding
characters.  Used only to state that an input is malformed. -/
def isValidBase64 (s : String) : Bool :=
  let cs := s.toList
  let body := cs.takeWhile (fun c => c != '=')
  let pad := cs.dropWhile (fun c => c != '=')
  decide (cs.length % 4 = 0) && body.all isB64StdChar &&
    pad.all (fun c => c == '=') && decide (pad.length ≤ 2)

/-- A concrete environment for the C4 counterexample: TLS forced on, no
raw CA override, malformed base64 override `aGVsbG8=!`. -/
def envC4bad : Env :=
  ⟨none, none, none, some "1", none, none, some "aGVsbG8=!", none, none⟩

/-- A concrete environment for the C4 witness: TLS forced on, base64
override ` aGVs bG8h ` containing whitespace (stripped, it decodes to
"hello!"). -/
def envC4ws : Env :=
  ⟨none, none, none, some "1", none, none, some " aGVs bG8h ", none, none⟩

deriving instance DecidableEq for Except

/-- Whether a check returned normally (did not throw). -/
def exIsOk : Except String (List Line) → Bool
  | Except.ok _ => true
  | Except.error _ => false

/-- The lines a successful check printed (none for a thrown check). -/
def exLines : Except String (List Line) → List Line
  | Except.ok ls => ls
  | Except.error _ => []

/-- A world in which every collaborator fails (used to show runs that
never reach it). -/
def wDead : World :=
  ⟨Except.error "unreachable", "", Except.error "unreachable"⟩

/-- An environment with only the skip-all-checks flag set (and no
`DATABASE_URL` at all). -/
def envSkipOnly : Env :=
  ⟨none, some "1", none, none, none, none, none, none, none⟩

/-- An environment for the C1 witness: a plain URL, migrations
skipped. -/
def envC1 : Env :=
  ⟨some "postgres://h/db", none, some "1", none, none, none, none, none, none⟩

/-- A world for the C1 witness: the connection attempt is refused. -/
def wC1 : World :=
  ⟨Except.error "ECONNREFUSED", "17.0", Except.ok "ok"⟩

/-- A world for the C8 witness: the server is reachable and reports
version 10.0.0; the migration runner would fail if it were invoked. -/
def wC8 : World :=
  ⟨Except.ok (), "10.0.0", Except.error "never run"⟩

/-- A JSON value, as produced by `JSON.parse` in `src/lib/fetch.ts`.
Numeric literals are modelled as integers (the modelled fragment of
JavaScript numbers sufficient for the payloads considered). -/
inductive Json where
  | null
  | bool (b : Bool)
  | num (n : Int)
  | str (s : String)
  | arr (xs : List Json)
  | obj (fields : List (String × Json))

/-- JSON whitespace (RFC 8259): space, tab, line feed, carriage
return. -/
def jsonWs (c : Char) : Bool :=
  c == ' ' || c == '\t' || c == '\n' || c == '\r'

/-- Value of one hexadecimal digit. -/
def hexVal (c : Char) : Option Nat :=
  if isDigitC c then some (c.toNat - 48)
  else if decide ('a' ≤ c ∧ c ≤ 'f') then some (c.toNat - 97 + 10)
  else if decide ('A' ≤ c ∧ c ≤ 'F') then some (c.toNat - 65 + 10)
  else none

/-- The body of a JSON string literal, after the opening quote: returns
the accumulated text and the input after the closing quote.  Handles
the JSON escapes; a `\u` escape naming a surrogate code unit is outside
the modelled fragment and fails.  Raw control characters are a JSON
parse error.  The accumulator holds the characters read, reversed. -/
def parseJsonStr : Nat → List Char → List Char → Option (String × List Char)
  | 0, _, _ => none
  | f + 1, acc, cs =>
    match cs with
    | [] => none
    | c :: rest =>
      if c == '"' then some (String.mk acc.reverse, rest)
      else if c == '\\' then
        match rest with
        | e :: r2 =>
          if e == '"' then parseJsonStr f ('"' :: acc) r2
          else if e == '\\' then parseJsonStr f ('\\' :: acc) r2
          else if e == '/' then parseJsonStr f ('/' :: acc) r2
          else if e == 'b' then parseJsonStr f ('\x08' :: acc) r2
          else if e == 'f' then parseJsonStr f ('\x0c' :: acc) r2
          else if e == 'n' then parseJsonStr f ('\n' :: acc) r2
          else if e == 'r' then parseJsonStr f ('\r' :: acc) r2
          else if e == 't' then parseJsonStr f ('\t' :: acc) r2
          else if e == 'u' then
            match r2 with
            | h1 :: h2 :: h3 :: h4 :: r3 =>
              match hexVal h1, hexVal h2, hexVal h3, hexVal h4 with
              | some a, some b, some c2, some d =>
                let cp := a * 4096 + b * 256 + c2 * 16 + d
                if decide (0xD800 ≤ cp ∧ cp ≤ 0xDFFF) then none
                else parseJsonStr f (Char.ofNat cp :: acc) r3
              | _, _, _, _ => none
            | _ => none
          else none
        | [] => none
      else if decide (c.toNat < 32) then none
      else parseJsonStr f (c :: acc) rest

/-- Whether a digit run starts with `0` (JSON forbids leading zeros). -/
def headIsDigitZero : List Char → Bool
  | '0' :: _ => true
  | _ => false

/-- A JSON number literal: optional minus, then digits with no leading
zero.  A fraction or exponent part is outside the modelled fragment
and fails (no theorem depends on the value parsed at such inputs). -/
def parseJsonNum (cs : List Char) : Option (Json × List Char) :=
  let neg := match cs with
    | '-' :: _ => true
    | _ => false
  let cs2 := if neg then cs.tail else cs
  let run := cs2.takeWhile isDigitC
  let rest := cs2.dropWhile isDigitC
  if run.isEmpty then none
  else if decide (2 ≤ run.length) && headIsDigitZero run then none
  else
    match rest with
    | c :: _ =>
      if c == '.' || c == 'e' || c == 'E' then none
      else some (Json.num (if neg then -(digitsToNat run : Int) else (digitsToNat run : Int)), rest)
    | [] =>
      some (Json.num (if neg then -(digitsToNat run : Int) else (digitsToNat run : Int)), [])

mutual

/-- One JSON value, leading whitespace allowed; returns the remaining
input.  The first argument is fuel. -/
def parseJsonV : Nat → List Char → Option (Json × List Char)
  | 0, _ => none
  | f + 1, cs =>
    match cs.dropWhile jsonWs with
    | [] => none
    | c :: rest =>
      if c == 'n' then
        match rest with
        | 'u' :: 'l' :: 'l' :: r => some (Json.null, r)
        | _ => none
      else if c == 't' then
        match rest with
        | 'r' :: 'u' :: 'e' :: r => some (Json.bool true, r)
        | _ => none
      else if c == 'f' then
        match rest with
        | 'a' :: 'l' :: 's' :: 'e' :: r => some (Json.bool false, r)
        | _ => none
      else if c == '"' then
        match parseJsonStr f [] rest with
        | some (s, r) => some (Json.str s, r)
        | none => none
      else if c == '[' then
        match rest.dropWhile jsonWs with
        | ']' :: r => some (Json.arr [], r)
        | _ =>
          match parseArrItems f rest with
          | some (xs, r) => some (Json.arr xs, r)
          | none => none
      else if c == '{' then
        match rest.dropWhile jsonWs with
        | '}' :: r => some (Json.obj [], r)
        | _ =>
          match parseObjItems f rest with
          | some (fs, r) => some (Json.obj fs, r)
          | none => none
      else if c == '-' || isDigitC c then parseJsonNum (c :: rest)
      else none

/-- The comma-separated items of a non-empty JSON array, up to and
including the closing bracket. -/
def parseArrItems : Nat → List Char → Option (List Json × List Char)
  | 0, _ => none
  | f + 1, cs =>
    match parseJsonV f cs with
    | some (x, r) =>
      match r.dropWhile jsonWs with
      | ',' :: r2 =>
        match parseArrItems f r2 with
        | some (xs, r3) => some (x :: xs, r3)
        | none => none
      | ']' :: r2 => some ([x], r2)
      | _ => none
    | none => none

/-- The comma-separated members of a non-empty JSON object, up to and
including the closing brace. -/
def parseObjItems : Nat → List Char → Option (List (String × Json) × List Char)
  | 0, _ => none
  | f + 1, cs =>
    match cs.dropWhile jsonWs with
    | '"' :: r =>
      match parseJsonStr f [] r with
      | some (k, r2) =>
        match r2.dropWhile jsonWs with
        | ':' :: r3 =>
          match parseJsonV f r3 with
          | some (v, r4) =>
            match r4.dropWhile jsonWs with
            | ',' :: r5 =>
              match parseObjItems f r5 with
              | some (fs, r6) => some ((k, v) :: fs, r6)
              | none => none
            | '}' :: r5 => some ([(k, v)], r5)
            | _ => none
          | none => none
        | _ => none
      | none => none
    | _ => none

end

/-- `JSON.parse`: one top-level value with only whitespace around it;
`none` models a thrown SyntaxError. -/
def parseJson (s : String) : Option Json :=
  match parseJsonV (2 * s.length + 2) s.toList with
  | some (j, r) => if (r.dropWhile jsonWs).isEmpty then some j else none
  | none => none

/-- JavaScript truthiness of a JSON value (`!data` in the source):
`null`, `false`, `0` and the empty string are falsy. -/
def jsonTruthy : Json → Bool
  | Json.null => false
  | Json.bool b => b
  | Json.num n => n != 0
  | Json.str s => s != ""
  | Json.arr _ => true
  | Json.obj _ => true

/-- `typeof data === 'object'` for a JSON value: true for objects,
arrays and `null`. -/
def jsonIsObjectType : Json → Bool
  | Json.null => true
  | Json.arr _ => true
  | Json.obj _ => true
  | _ => false

/-- `'error' in data`: key membership for objects; `false` for arrays
(a non-index name is not in an array).  Other cases are unreachable in
the source (guarded by the truthiness and `typeof` tests). -/
def jsonHasKey (j : Json) (k : String) : Bool :=
  match j with
  | Json.obj fs => fs.any (fun p => p.1 == k)
  | _ => false

/-- Whether the second list starts with the first. -/
def startsWithL : List Char → List Char → Bool
  | [], _ => true
  | _ :: _, [] => false
  | p :: ps, c :: cs => p == c && startsWithL ps cs

/-- Whether the second list contains the first as a contiguous run. -/
def containsL (pat : List Char) : List Char → Bool
  | [] => pat.isEmpty
  | c :: cs => startsWithL pat (c :: cs) || containsL pat cs

/-- Substring containment, for `contentType.includes(...)`. -/
def strContains (s pat : String) : Bool :=
  containsL pat.toList s.toList

/-- `raw.trimStart()` restricted to the ASCII whitespace characters
(the Unicode spaces JavaScript also trims are not exercised here). -/
def jsTrimStartL (cs : List Char) : List Char :=
  cs.dropWhile jsWsChar

/-- Whether a character list starts with the given character. -/
def headIs (cs : List Char) (c : Char) : Bool :=
  match cs with
  | d :: _ => d == c
  | [] => false

/-- The structured error payload the helper synthesizes:
`{ error: { message, status } }`. -/
def errPayload (msg : String) (status : Nat) : Json :=
  Json.obj [("error", Json.obj [("message", Json.str msg),
                                ("status", Json.num (Int.ofNat status))])]

/-- What the `fetch` response callback observes of the underlying
response: `res.ok`, `res.status`, `res.statusText`,
`res.headers.get('content-type')` and the body text `await res.text()`
(reading the body as text never throws on empty or non-JSON bodies). -/
structure JsResponse where
  ok : Bool
  status : Nat
  statusText : String
  contentType : Option String
  bodyText : String

/-- The value returned by `request` (`FetchResponse` in the source):
`data = none` models the `data` field left `undefined`. -/
structure FetchResponse where
  ok : Bool
  status : Nat
  data : Option Json

/-- The body-interpretation stage of `request`: an empty body leaves
`data` undefined; a body that announces JSON (content type, or first
non-blank character `{` or `[`) is parsed, a parse failure falling
back to a structured error wrapping the raw text; any other body is
wrapped in the same structured error. -/
def bodyData (res : JsResponse) : Option Json :=
  if res.bodyText != "" then
    if strContains (res.contentType.getD "") "application/json" ||
        headIs (jsTrimStartL res.bodyText.toList) '{' ||
        headIs (jsTrimStartL res.bodyText.toList) '[' then
      match parseJson res.bodyText with
      | some j => some j
      | none => some (errPayload res.bodyText res.status)
    else some (errPayload res.bodyText res.status)
  else none

/-- The non-OK normalisation stage of `request`: for a non-OK response
whose `data` is falsy, not of object type, or lacking an `error` key,
synthesize `{ error: { message: statusText || 'Request failed',
status } }`; otherwise keep `data` as is. -/
def normalizeData (ok : Bool) (statusText : String) (status : Nat)
    (d0 : Option Json) : Option Json :=
  if !ok &&
      (!(match d0 with | some j => jsonTruthy j | none => false) ||
       !(match d0 with | some j => jsonIsObjectType j | none => false) ||
       !(match d0 with | some j => jsonHasKey j "error" | none => false)) then
    some (errPayload (if statusText != "" then statusText else "Request failed") status)
  else d0

/-- The response callback of `request` in `src/lib/fetch.ts`: interpret
the body, normalise non-OK payloads, and return `ok`/`status` of the
underlying response together with `data`.  (The development-mode
`console.error` is observability only and not modelled.) -/
def processResponse (res : JsResponse) : FetchResponse :=
  ⟨res.ok, res.status, normalizeData res.ok res.statusText res.status (bodyData res)⟩

/-- Whether a value is a JSON object carrying an `error` key. -/
def isErrorObject : Option Json → Bool
  | some (Json.obj fs) => fs.any (fun p => p.1 == "error")
  | _ => false

/-- A non-OK JSON response whose payload has an `error` field that
carries no message: body text `{"error":{}}` (braces written as
character escapes). -/
def resC10 : JsResponse :=
  ⟨false, 500, "Internal Server Error", some "application/json",
   "\x7b\"error\":\x7b\x7d\x7d"⟩

/-- An empty-bodied 404 response, for the C10 witness. -/
def res404 : JsResponse := ⟨false, 404, "Not Found", none, ""⟩

theorem getSslOptions_isSome_eq (u : UrlModel) (env : Env) :
    (getSslOptions u env).isSome = tlsEnabledBool u env := by
  simp only [getSslOptions, tlsEnabledBool]
  cases hcond : (env.DATABASE_SSL == some "1" || env.DATABASE_SSL == some "true" ||
      u.get "ssl" == some "1" || u.get "ssl" == some "true" ||
      (jsTruthy (u.get "sslmode") && u.get "sslmode" != some "disable")) <;>
    simp [hcond]

theorem getSslOptions_fields (u : UrlModel) (env : Env) (opts : SslOptions)
    (h : getSslOptions u env = some opts) :
    opts.rejectUnauthorized =
      (match env.DATABASE_SSL_REJECT_UNAUTHORIZED with
       | some v => !(v == "0" || v == "false")
       | none =>
         if u.get "sslmode" == some "require" || u.get "sslmode" == some "prefer" then false
         else true) ∧
    opts.ca = (if jsTruthy (resolvedCa env) then resolvedCa env else none) := by
  simp only [getSslOptions] at h
  cases hcond : (env.DATABASE_SSL == some "1" || env.DATABASE_SSL == some "true" ||
      u.get "ssl" == some "1" || u.get "ssl" == some "true" ||
      (jsTruthy (u.get "sslmode") && u.get "sslmode" != some "disable")) <;>
    simp [hcond] at h
  obtain ⟨ru, ca⟩ := opts
  simp only [SslOptions.mk.injEq] at h
  obtain ⟨h1, h2⟩ := h
  constructor
  · show ru = _
    rw [← h1]
    simp
  · show ca = _
    rw [← h2]
    simp [resolvedCa]

/-- C2, as stated, is refuted: with connection URL query `?sslmode=`
the `sslmode` parameter is present (with the empty value) and is not
equal to "disable", so the claimed rule enables TLS; but the code's
test `(sslmode && sslmode !== 'disable')` sees the falsy empty string
and the derivation returns undefined (no TLS). -/
theorem c2_present_empty_sslmode_refutes :
    claimedTlsEnabled ⟨[("sslmode", "")]⟩ emptyEnv = true ∧
    getSslOptions ⟨[("sslmode", "")]⟩ emptyEnv = none := by decide

/-- C2 (amended): TLS option derivation enables TLS if and only if the
environment override flag is truthy (`'1'` or `'true'`), or the URL's
`ssl` parameter is truthy, or the `sslmode` parameter is present with a
non-empty value not equal to "disable"; and for every connection URL
with neither `ssl` nor `sslmode` and no environment override the
derivation returns undefined (no TLS), applying no further rules. -/
theorem c2_tls_enable_rule (u : UrlModel) (env : Env) :
    ((getSslOptions u env).isSome = true ↔
      (flagTruthy env.DATABASE_SSL = true ∨ flagTruthy (u.get "ssl") = true ∨
        ∃ m, u.get "sslmode" = some m ∧ m ≠ "" ∧ m ≠ "disable")) ∧
    (env.DATABASE_SSL = none → u.get "ssl" = none → u.get "sslmode" = none →
      getSslOptions u env = none) := by
  constructor
  · rw [getSslOptions_isSome_eq]
    cases hd : env.DATABASE_SSL <;> cases hl : u.get "ssl" <;>
      cases hm : u.get "sslmode" <;>
        simp [tlsEnabledBool, flagTruthy, jsTruthy, hd, hl, hm] <;> tauto
  · intro h1 h2 h3
    have hb : tlsEnabledBool u env = false := by
      simp [tlsEnabledBool, h1, h2, h3, jsTruthy]
    have hs := getSslOptions_isSome_eq u env
    rw [hb] at hs
    cases ho : getSslOptions u env with
    | none => rfl
    | some x => rw [ho] at hs; simp at hs

/-- Witness for C2: `?sslmode=verify-full` enables TLS; a URL without
`ssl`/`sslmode` and no override yields no TLS. -/
theorem c2_tls_enable_rule_inst :
    (getSslOptions ⟨[("sslmode", "verify-full")]⟩ emptyEnv).isSome = true ∧
    getSslOptions ⟨[]⟩ emptyEnv = none :=
  ⟨(c2_tls_enable_rule ⟨[("sslmode", "verify-full")]⟩ emptyEnv).1.mpr
      (Or.inr (Or.inr ⟨"verify-full", by decide, by decide, by decide⟩)),
    (c2_tls_enable_rule ⟨[]⟩ emptyEnv).2 rfl rfl rfl⟩

/-- C3 (confirmed): when TLS is enabled, the reject-unauthorized
override, if explicitly set, alone decides the verify flag (`"0"` and
`"false"` give false, anything else true), even when
`sslmode=verify-full`; otherwise `sslmode` equal to "require" or
"prefer" gives false and every other enabled configuration (including
absent `sslmode`, and `verify-full`) gives true. -/
theorem c3_verify_priority (u : UrlModel) (env : Env) (opts : SslOptions)
    (h : getSslOptions u env = some opts) :
    (∀ v, env.DATABASE_SSL_REJECT_UNAUTHORIZED = some v →
        (opts.rejectUnauthorized = false ↔ (v = "0" ∨ v = "false"))) ∧
    (env.DATABASE_SSL_REJECT_UNAUTHORIZED = none →
      ((u.get "sslmode" = some "require" ∨ u.get "sslmode" = some "prefer") →
          opts.rejectUnauthorized = false) ∧
      (u.get "sslmode" ≠ some "require" → u.get "sslmode" ≠ some "prefer" →
          opts.rejectUnauthorized = true)) := by
  have hru := (getSslOptions_fields u env opts h).1
  constructor
  · intro v hv
    rw [hru, hv]
    constructor
    · intro hb
      by_contra hcon
      push_neg at hcon
      simp [hcon.1, hcon.2] at hb
    · rintro (rfl | rfl) <;> simp
  · intro hnone
    rw [hru, hnone]
    constructor
    · rintro (hm | hm) <;> simp [hm]
    · intro h1 h2
      simp [h1, h2]

/-- Witness for C3: the override `"false"` forces verify off even with
`sslmode=verify-full`; absent any override, `sslmode=require` yields
verify off. -/
theorem c3_verify_priority_inst :
    ({ rejectUnauthorized := false, ca := none } : SslOptions).rejectUnauthorized = false ∧
    ({ rejectUnauthorized := false, ca := none } : SslOptions).rejectUnauthorized = false :=
  ⟨((c3_verify_priority ⟨[("sslmode", "verify-full")]⟩
        { emptyEnv with DATABASE_SSL_REJECT_UNAUTHORIZED := some "false" }
        { rejectUnauthorized := false, ca := none } (by decide)).1 "false"
          (by decide)).mpr (Or.inr rfl),
    ((c3_verify_priority ⟨[("sslmode", "require")]⟩ emptyEnv
        { rejectUnauthorized := false, ca := none } (by decide)).2 (by decide)).1
      (Or.inl (by decide))⟩

/-- C9 (confirmed): whenever TLS derivation returns a value, the result
carries a boolean `rejectUnauthorized`; the `ca` key is present only
with a non-empty string; an empty-string raw CA override is falsy and
falls through to the base64 override; and when neither resolves to a
truthy string the `ca` key is omitted. -/
theorem c9_ssl_options_shape (u : UrlModel) (env : Env) (opts : SslOptions)
    (h : getSslOptions u env = some opts) :
    (opts.rejectUnauthorized = true ∨ opts.rejectUnauthorized = false) ∧
    (∀ c, opts.ca = some c → c ≠ "") ∧
    (env.DATABASE_SSL_CA = some "" → jsTruthy env.DATABASE_SSL_CA_BASE64 = true →
        opts.ca =
          (if nodeB64ToUtf8 (stripJsWs (env.DATABASE_SSL_CA_BASE64.getD "")) = ""
           then none
           else some (nodeB64ToUtf8 (stripJsWs (env.DATABASE_SSL_CA_BASE64.getD ""))))) ∧
    (jsTruthy env.DATABASE_SSL_CA = false → jsTruthy env.DATABASE_SSL_CA_BASE64 = false →
        opts.ca = none) := by
  have hca := (getSslOptions_fields u env opts h).2
  refine ⟨by cases opts.rejectUnauthorized <;> simp, ?_, ?_, ?_⟩
  · intro c hc
    rw [hca] at hc
    by_cases ht : jsTruthy (resolvedCa env) = true
    · rw [if_pos ht] at hc
      rw [hc] at ht
      simpa [jsTruthy] using ht
    · rw [if_neg ht] at hc
      exact absurd hc (by simp)
  · intro h1 h2
    rw [hca]
    have h0 : jsTruthy (some "" : Option String) = false := by decide
    have hr : resolvedCa env =
        some (nodeB64ToUtf8 (stripJsWs (env.DATABASE_SSL_CA_BASE64.getD ""))) := by
      unfold resolvedCa
      rw [h1, h0, h2]
      simp
    rw [hr]
    by_cases hz : nodeB64ToUtf8 (stripJsWs (env.DATABASE_SSL_CA_BASE64.getD "")) = "" <;>
      simp [hz, jsTruthy]
  · intro h1 h2
    rw [hca]
    have hr : resolvedCa env = env.DATABASE_SSL_CA := by
      simp [resolvedCa, h2]
    rw [hr, h1]
    simp

/-- Witness for C9: empty raw override plus base64 `aGk=` (decoding to
"hi") yields `ca = some "hi"`. -/
theorem c9_ssl_options_shape_inst :
    ({ rejectUnauthorized := true, ca := some "hi" } : SslOptions).ca =
      (if nodeB64ToUtf8 (stripJsWs (envC9.DATABASE_SSL_CA_BASE64.getD "")) = ""
       then none
       else some (nodeB64ToUtf8 (stripJsWs (envC9.DATABASE_SSL_CA_BASE64.getD "")))) :=
  ((c9_ssl_options_shape ⟨[]⟩ envC9
      { rejectUnauthorized := true, ca := some "hi" } (by decide)).2.2.1
    (by decide) (by decide))

/-- C4, as stated, is refuted: `aGVsbG8=!` is not valid base64 (trailing
`!`, length not a multiple of four), yet nothing raises and Node's
lenient decoder yields the text "hello", so the result carries
`ca = "hello"` — not `caCertificate = undefined` as the claim demands
for every malformed override. -/
theorem c4_malformed_base64_refutes :
    isValidBase64 "aGVsbG8=!" = false ∧
    getSslOptions ⟨[]⟩ envC4bad =
      some { rejectUnauthorized := true, ca := some "hello" } := by decide

/-- C4 (amended): when the raw CA override is not truthy and the base64
override is truthy, the derivation strips all whitespace from the
base64 value and decodes it leniently to UTF-8 text — a total
operation that never raises, malformed input included; the `ca` key
carries the decoded text when it is non-empty, and only when the
decode yields the empty string is the CA material absent. -/
theorem c4_ca_base64_decode (u : UrlModel) (env : Env) (opts : SslOptions)
    (h : getSslOptions u env = some opts)
    (hca : jsTruthy env.DATABASE_SSL_CA = false)
    (hb : jsTruthy env.DATABASE_SSL_CA_BASE64 = true) :
    opts.ca = (if nodeB64ToUtf8 (stripJsWs (env.DATABASE_SSL_CA_BASE64.getD "")) = ""
               then none
               else some (nodeB64ToUtf8 (stripJsWs (env.DATABASE_SSL_CA_BASE64.getD "")))) := by
  have h2 := (getSslOptions_fields u env opts h).2
  rw [h2]
  have hr : resolvedCa env =
      some (nodeB64ToUtf8 (stripJsWs (env.DATABASE_SSL_CA_BASE64.getD ""))) := by
    unfold resolvedCa
    rw [hca, hb]
    simp
  rw [hr]
  by_cases hz : nodeB64ToUtf8 (stripJsWs (env.DATABASE_SSL_CA_BASE64.getD "")) = "" <;>
    simp [hz, jsTruthy]

/-- Witness for C4: whitespace inside the base64 override is stripped
before decoding, and the decoded non-empty text is kept as the CA. -/
theorem c4_ca_base64_decode_inst :
    ({ rejectUnauthorized := true, ca := some "hello!" } : SslOptions).ca =
      (if nodeB64ToUtf8 (stripJsWs (envC4ws.DATABASE_SSL_CA_BASE64.getD "")) = ""
       then none
       else some (nodeB64ToUtf8 (stripJsWs (envC4ws.DATABASE_SSL_CA_BASE64.getD "")))) :=
  c4_ca_base64_decode ⟨[]⟩ envC4ws
    { rejectUnauthorized := true, ca := some "hello!" }
    (by decide) (by decide) (by decide)

/-- A run in which every check succeeds executes all of them in order,
prints their lines in order, and exits 0. -/
theorem runChecksList_all_ok (l : List (String × Except String (List Line)))
    (h : ∀ p ∈ l, exIsOk p.2 = true) :
    runChecksList l =
      ⟨l.map (fun p => p.1), (l.map (fun p => exLines p.2)).flatten, 0⟩ := by
  induction l with
  | nil => rfl
  | cons p rest ih =>
    obtain ⟨name, r⟩ := p
    have h1 : exIsOk r = true := h (name, r) (List.mem_cons_self _ _)
    cases r with
    | ok ls =>
      have h2 : ∀ q ∈ rest, exIsOk q.2 = true :=
        fun q hq => h q (List.mem_cons_of_mem _ hq)
      simp [runChecksList, ih h2, exLines]
    | error e => simp [exIsOk] at h1

/-- A run whose first failing check is `name` executes exactly the
successful prefix and `name`, prints the prefix's lines followed by one
failure line, and exits 1: no later entry is attempted. -/
theorem runChecksList_first_error (pre : List (String × Except String (List Line)))
    (name : String) (e : String) (post : List (String × Except String (List Line)))
    (h : ∀ p ∈ pre, exIsOk p.2 = true) :
    runChecksList (pre ++ (name, Except.error e) :: post) =
      ⟨pre.map (fun p => p.1) ++ [name],
       (pre.map (fun p => exLines p.2)).flatten ++ [Line.err e],
       1⟩ := by
  induction pre with
  | nil => simp [runChecksList]
  | cons p rest ih =>
    obtain ⟨n, r⟩ := p
    have h1 : exIsOk r = true := h (n, r) (List.mem_cons_self _ _)
    cases r with
    | ok ls =>
      have h2 : ∀ q ∈ rest, exIsOk q.2 = true :=
        fun q hq => h q (List.mem_cons_of_mem _ hq)
      simp [runChecksList, ih h2, exLines]
    | error e2 => simp [exIsOk] at h1

/-- When the skip guard is off and the URL parses, the script's outcome
is the pipeline's outcome, with the optional TLS debug line first. -/
theorem runScript_pipeline (parse : String → Option UrlModel) (env : Env) (w : World)
    (s : String) (url : UrlModel)
    (h1 : jsTruthy env.SKIP_DB_CHECK = false)
    (h2 : env.DATABASE_URL = some s)
    (h3 : parse s = some url) :
    runScript parse env w =
      ⟨(runChecksList (pipelineChecks env w)).ran,
       sslDebugLines url env ++ (runChecksList (pipelineChecks env w)).trace,
       (runChecksList (pipelineChecks env w)).exitCode⟩ := by
  simp [runScript, h1, h2, h3]

/-- C5 (confirmed): with the skip-all-checks override set (to a truthy
value, as the guard `if (process.env.SKIP_DB_CHECK)` tests), no check
executes — the pipeline is bypassed before any check runs — and the
process exits 0, for every environment (valid or not, the connection
URL included), every URL-parse behaviour and every outside world. -/
theorem c5_skip_all_checks (parse : String → Option UrlModel) (env : Env) (w : World)
    (h : jsTruthy env.SKIP_DB_CHECK = true) :
    runScript parse env w = ⟨[], [Line.log "Skipping database check."], 0⟩ := by
  simp [runScript, h]

/-- Witness for C5: skip set, `DATABASE_URL` absent, a URL constructor
that always throws, every collaborator failing — still exit 0, nothing
ran. -/
theorem c5_skip_all_checks_inst :
    runScript (fun _ => none) envSkipOnly wDead =
      ⟨[], [Line.log "Skipping database check."], 0⟩ :=
  c5_skip_all_checks (fun _ => none) envSkipOnly wDead (by decide)

/-- C6, as stated, is refuted: with `DATABASE_URL` absent the process
does exit 1 and no later check runs, but EnvironmentCheck never
executes and never fails with its ConfigError — the module-level
`new URL(process.env.DATABASE_URL)` stringifies `undefined` and throws
before the check loop starts, so no failure line is printed at all. -/
theorem c6_absent_url_refutes :
    (runScript parseUrlModel emptyEnv wDead).exitCode = 1 ∧
    (runScript parseUrlModel emptyEnv wDead).ran = [] ∧
    Line.err "DATABASE_URL is not defined." ∉
      (runScript parseUrlModel emptyEnv wDead).trace := by decide

/-- C6 (amended): for every run where the connection-string
configuration is absent and the skip-all-checks override is not set,
the process terminates with exit code 1 before any check executes: the
module-level URL construction throws, so EnvironmentCheck (and every
later check) never runs and nothing is printed by the pipeline. -/
theorem c6_absent_url_crash (parse : String → Option UrlModel) (env : Env) (w : World)
    (h1 : env.DATABASE_URL = none) (h2 : jsTruthy env.SKIP_DB_CHECK = false) :
    runScript parse env w = ⟨[], [], 1⟩ := by
  simp [runScript, h1, h2]

/-- Witness for C6 (amended): the empty environment crashes with exit 1
and an empty trace. -/
theorem c6_absent_url_crash_inst :
    runScript parseUrlModel emptyEnv wDead = ⟨[], [], 1⟩ :=
  c6_absent_url_crash parseUrlModel emptyEnv wDead rfl (by decide)

/-- C1 (confirmed): for every run that reaches the pipeline (skip guard
off, URL parsed), the checks are the fixed ordered list EnvironmentCheck
(`checkEnv`), ConnectivityCheck (`checkConnection`),
VersionCompatibilityCheck (`checkDatabaseVersion`), MigrationApplyCheck
(`applyMigration`); when all succeed the process exits 0 having run all
four in order; when some check fails, exactly the successful prefix and
the first failing check run, a failure line for that check is printed
last, the exit code is 1, and no later check in the list is attempted. -/
theorem c1_pipeline_order_fail_fast (parse : String → Option UrlModel) (env : Env)
    (w : World) (s : String) (url : UrlModel)
    (h1 : jsTruthy env.SKIP_DB_CHECK = false)
    (h2 : env.DATABASE_URL = some s)
    (h3 : parse s = some url) :
    (pipelineChecks env w).map (fun p => p.1) =
      ["checkEnv", "checkConnection", "checkDatabaseVersion", "applyMigration"] ∧
    ((∀ p ∈ pipelineChecks env w, exIsOk p.2 = true) →
      (runScript parse env w).exitCode = 0 ∧
      (runScript parse env w).ran =
        ["checkEnv", "checkConnection", "checkDatabaseVersion", "applyMigration"]) ∧
    (∀ pre name e post,
      pipelineChecks env w = pre ++ (name, Except.error e) :: post →
      (∀ p ∈ pre, exIsOk p.2 = true) →
      (runScript parse env w).exitCode = 1 ∧
      (runScript parse env w).ran = pre.map (fun p => p.1) ++ [name] ∧
      (runScript parse env w).trace =
        sslDebugLines url env ++ (pre.map (fun p => exLines p.2)).flatten ++
          [Line.err e]) := by
  refine ⟨rfl, ?_, ?_⟩
  · intro hok
    rw [runScript_pipeline parse env w s url h1 h2 h3,
      runChecksList_all_ok (pipelineChecks env w) hok]
    exact ⟨rfl, rfl⟩
  · intro pre name e post heq hpre
    rw [runScript_pipeline parse env w s url h1 h2 h3, heq,
      runChecksList_first_error pre name e post hpre]
    exact ⟨rfl, rfl, by simp⟩

/-- Witness for C1: with the connection refused, the run executes
exactly `checkEnv` then `checkConnection`, prints the success line, the
failure line, and exits 1. -/
theorem c1_pipeline_order_fail_fast_inst :
    (runScript parseUrlModel envC1 wC1).exitCode = 1 ∧
    (runScript parseUrlModel envC1 wC1).ran = ["checkEnv", "checkConnection"] ∧
    (runScript parseUrlModel envC1 wC1).trace =
      [Line.ok "DATABASE_URL is defined.",
       Line.err "Unable to connect to the database: ECONNREFUSED"] := by
  have h := (c1_pipeline_order_fail_fast parseUrlModel envC1 wC1 "postgres://h/db" ⟨[]⟩
      (by decide) (by decide) (by decide)).2.2
      [("checkEnv", checkEnv envC1)] "checkConnection"
      "Unable to connect to the database: ECONNREFUSED"
      [("checkDatabaseVersion", checkDatabaseVersion wC1),
       ("applyMigration", applyMigration envC1 wC1)]
      (by decide)
      (by intro p hp; rw [List.mem_singleton] at hp; subst hp; decide)
  refine ⟨h.1, by rw [h.2.1]; rfl, by rw [h.2.2]; decide⟩

/-- C7 (confirmed): VersionCompatibilityCheck coerces the server's
reported version by extracting the first semantic-version-like
substring ("PostgreSQL 9.3.1 on linux" coerces to 9.3.1) and fails
exactly when the coerced version is strictly below the fixed minimum
9.4.0, or when no version can be coerced at all (in the latter case the
raised error is the TypeError `semver.lt` throws on `null`; the spec's
error taxonomy classifies either failure of this check as its
CompatibilityError).  "9.5.0" passes. -/
theorem c7_version_check (w : World) :
    ((∃ m, checkDatabaseVersion w = Except.error m) ↔
      (semverCoerce w.versionString = none ∨
        ∃ v, semverCoerce w.versionString = some v ∧ semverLtV v MIN_VERSION = true)) ∧
    semverCoerce "PostgreSQL 9.3.1 on linux" = some (9, 3, 1) ∧
    semverLtV (9, 3, 1) MIN_VERSION = true ∧
    exIsOk (checkDatabaseVersion ⟨Except.ok (), "9.5.0", Except.ok ""⟩) = true := by
  refine ⟨?_, by decide, by decide, by decide⟩
  cases hc : semverCoerce w.versionString with
  | none => simp [checkDatabaseVersion, hc]
  | some v =>
    by_cases hlt : semverLtV v MIN_VERSION = true
    · simp [checkDatabaseVersion, hc, hlt]
    · simp [checkDatabaseVersion, hc, hlt]

/-- Witness for C7: the vendor-decorated 9.3.1 string coerces and
fails. -/
theorem c7_version_check_inst :
    semverCoerce "PostgreSQL 9.3.1 on linux" = some (9, 3, 1) ∧
    (∃ m, checkDatabaseVersion ⟨Except.ok (), "PostgreSQL 9.3.1 on linux", Except.ok ""⟩ =
      Except.error m) :=
  ⟨(c7_version_check wDead).2.1,
   (c7_version_check ⟨Except.ok (), "PostgreSQL 9.3.1 on linux", Except.ok ""⟩).1.mpr
     (Or.inr ⟨(9, 3, 1), by decide, by decide⟩)⟩

/-- A string accepted by the URL constructor is non-empty, hence truthy
(its scheme begins with a letter). -/
theorem parseUrlModel_truthy (s : String) (u : UrlModel)
    (h : parseUrlModel s = some u) : jsTruthy (some s) = true := by
  have hv : validScheme s = true := by
    by_contra hnv
    unfold parseUrlModel at h
    rw [if_neg] at h
    · cases h
    · simpa using hnv
  have hne : s ≠ "" := by
    intro he
    subst he
    simp [validScheme] at hv
  simp [jsTruthy]
  exact hne

/-- C8 (confirmed): with the skip-migration override set (to a truthy
value, as the guard `if (!process.env.SKIP_DB_MIGRATION)` tests),
MigrationApplyCheck performs no migration work, prints nothing and
does not fail; end-to-end, a valid connection URL, a reachable server
reporting version 10.0.0 and the skip-migration override set yield the
ordered results Success (environment), Success (connection), Success
(version), nothing for the skipped migration, and exit code 0.  (The
informational `REDIS_URL` line and the optional TLS debug line are
turned off to pin the trace exactly.) -/
theorem c8_skip_migration_end_to_end (env : Env) (w : World) (s : String) (url : UrlModel)
    (h1 : jsTruthy env.SKIP_DB_CHECK = false)
    (h2 : env.DATABASE_URL = some s)
    (h3 : parseUrlModel s = some url)
    (h4 : jsTruthy env.SKIP_DB_MIGRATION = true)
    (h5 : w.connectResult = Except.ok ())
    (h6 : w.versionString = "10.0.0")
    (h7 : jsTruthy env.REDIS_URL = false)
    (h8 : jsTruthy env.DATABASE_SSL_DEBUG = false) :
    applyMigration env w = Except.ok [] ∧
    runScript parseUrlModel env w =
      ⟨["checkEnv", "checkConnection", "checkDatabaseVersion", "applyMigration"],
       [Line.ok "DATABASE_URL is defined.", Line.ok "Database connection successful.",
        Line.ok "Database version check successful."],
       0⟩ := by
  have hm : applyMigration env w = Except.ok [] := by
    simp [applyMigration, h4]
  have he : checkEnv env = Except.ok [Line.ok "DATABASE_URL is defined."] := by
    unfold checkEnv
    rw [h2, parseUrlModel_truthy s url h3, h7]
    simp
  have hc : checkConnection w = Except.ok [Line.ok "Database connection successful."] := by
    simp [checkConnection, h5]
  have hv : checkDatabaseVersion w =
      Except.ok [Line.ok "Database version check successful."] := by
    unfold checkDatabaseVersion
    rw [h6]
    decide
  refine ⟨hm, ?_⟩
  rw [runScript_pipeline parseUrlModel env w s url h1 h2 h3]
  have hp : pipelineChecks env w =
      [("checkEnv", Except.ok [Line.ok "DATABASE_URL is defined."]),
       ("checkConnection", Except.ok [Line.ok "Database connection successful."]),
       ("checkDatabaseVersion", Except.ok [Line.ok "Database version check successful."]),
       ("applyMigration", Except.ok [])] := by
    rw [pipelineChecks, he, hc, hv, hm]
  rw [hp]
  simp [runChecksList, sslDebugLines, h8]

/-- Witness for C8: the concrete environment of `envC1` (valid URL,
skip-migration set) against a reachable 10.0.0 server gives the three
success lines and exit 0, although the migration runner would fail. -/
theorem c8_skip_migration_end_to_end_inst :
    applyMigration envC1 wC8 = Except.ok [] ∧
    runScript parseUrlModel envC1 wC8 =
      ⟨["checkEnv", "checkConnection", "checkDatabaseVersion", "applyMigration"],
       [Line.ok "DATABASE_URL is defined.", Line.ok "Database connection successful.",
        Line.ok "Database version check successful."],
       0⟩ :=
  c8_skip_migration_end_to_end envC1 wC8 "postgres://h/db" ⟨[]⟩
    (by decide) rfl (by decide) (by decide) rfl rfl (by decide) (by decide)

/-- For a non-OK response, whatever the body stage produced, the final
`data` is an object carrying an `error` key. -/
theorem normalizeData_error_key (statusText : String) (status : Nat)
    (d0 : Option Json) :
    isErrorObject (normalizeData false statusText status d0) = true := by
  cases d0 with
  | none => simp [normalizeData, isErrorObject, errPayload]
  | some j =>
    cases j with
    | null => simp [normalizeData, jsonTruthy, isErrorObject, errPayload]
    | bool b =>
      cases b with
      | false => simp [normalizeData, jsonTruthy, isErrorObject, errPayload]
      | true =>
        simp [normalizeData, jsonTruthy, jsonIsObjectType, isErrorObject, errPayload]
    | num n => simp [normalizeData, jsonIsObjectType, isErrorObject, errPayload]
    | str s => simp [normalizeData, jsonIsObjectType, isErrorObject, errPayload]
    | arr xs =>
      simp [normalizeData, jsonTruthy, jsonIsObjectType, jsonHasKey, isErrorObject,
        errPayload]
    | obj fs =>
      by_cases hk : jsonHasKey (Json.obj fs) "error" = true
      · have hk2 : fs.any (fun p => p.1 == "error") = true := hk
        simp [normalizeData, jsonTruthy, jsonIsObjectType, jsonHasKey, isErrorObject, hk2]
      · simp only [Bool.not_eq_true] at hk
        have hk2 : fs.any (fun p => p.1 == "error") = false := hk
        simp [normalizeData, jsonTruthy, jsonIsObjectType, jsonHasKey, isErrorObject,
          errPayload, hk2]

/-- C10, as stated, is refuted: for this non-OK response the returned
`data` does contain an `error` field, but that field is the empty
object — no `message` and no `status` — because the source keeps any
object payload that has an `error` key as is, synthesizing a message
from the status text only when the payload supplies no `error` field
at all. -/
theorem c10_error_payload_refutes :
    processResponse resC10 =
      ⟨false, 500, some (Json.obj [("error", Json.obj [])])⟩ ∧
    jsonHasKey (Json.obj []) "message" = false ∧
    jsonHasKey (Json.obj []) "status" = false :=
  ⟨rfl, rfl, rfl⟩

/-- C10 (amended): the request helper never raises from response-body
handling — for every response, an empty body, a non-JSON body or a
body whose JSON parse fails included, it returns a response whose `ok`
and `status` mirror the underlying response; for every non-OK response
the returned `data` is an object containing an `error` field; and when
the payload supplies no data at all the error is synthesized from the
status text (or "Request failed") and the status code. -/
theorem c10_request_normalization (res : JsResponse) :
    (processResponse res).ok = res.ok ∧
    (processResponse res).status = res.status ∧
    (res.ok = false → isErrorObject (processResponse res).data = true) ∧
    (res.ok = false → bodyData res = none →
      (processResponse res).data =
        some (errPayload
          (if res.statusText != "" then res.statusText else "Request failed")
          res.status)) := by
  refine ⟨rfl, rfl, ?_, ?_⟩
  · intro hok
    show isErrorObject (normalizeData res.ok res.statusText res.status (bodyData res)) = true
    rw [hok]
    exact normalizeData_error_key res.statusText res.status (bodyData res)
  · intro hok hbody
    show normalizeData res.ok res.statusText res.status (bodyData res) = _
    rw [hok, hbody]
    simp [normalizeData]

/-- Witness for C10: an empty-bodied 404 yields a synthesized error
object built from the status text. -/
theorem c10_request_normalization_inst :
    isErrorObject (processResponse res404).data = true ∧
    (processResponse res404).data = some (errPayload "Not Found" 404) :=
  ⟨(c10_request_normalization res404).2.2.1 rfl, by
    have h := (c10_request_normalization res404).2.2.2 rfl rfl
    rw [h]
    rfl⟩
